import Mathlib

/-!
Verification of the RAG_app natural-language-to-SQL pipeline.

Shallow embedding of the repository's Python code:

* `Rag_app/rag/sql_generator.py` — `SQLGenerator.validate_sql`,
  `SQLGenerator.create_fallback_query`, `SQLGenerator.generate_sql`
  (the model invocation is abstracted as a `ModelResult` input; JSON
  parsing of the model text is embedded executably).
* `Rag_app/rag/memory_manager.py` — `ConversationMemory` with
  `create_session`, `add_exchange`, `get_conversation_history`,
  `get_context_for_question` (the ambient clock and the uuid generator
  are passed in as explicit arguments).
* `Rag_app/rag/response_generator.py` — the result-formatting step of
  `ResponseGenerator.generate_response` (the pandas `to_string` renderer
  is an explicit function parameter).

Python strings are modelled by Lean `String`, with the text algorithms
written structurally over `List Char` so that they evaluate by kernel
reduction; `lower`/`upper` are the ASCII case maps (the source only
compares ASCII keywords); Python floats are modelled by `ℚ`.
-/

namespace RagApp

/-- Python `needle in hay` substring test on character lists. -/
def occursIn (needle : List Char) : List Char → Bool
  | [] => needle.isEmpty
  | c :: rest => needle.isPrefixOf (c :: rest) || occursIn needle rest

/-- Python `needle_str in hay_str` on `String`. -/
def strContains (hay needle : String) : Bool :=
  occursIn needle.data hay.data

/-- Python `lst[-limit:]` for a non-negative `limit`: the last `limit`
elements — except that `limit = 0` gives `lst[0:]`, the whole list,
because `-0 == 0` in Python. -/
def pyTailSlice (l : List α) (limit : Nat) : List α :=
  if limit = 0 then l else l.drop (l.length - limit)

/-- ASCII upper-casing of one character (`str.upper` restricted to
ASCII, which is all the validator compares). -/
def pyUpperChar (c : Char) : Char :=
  if 97 ≤ c.toNat ∧ c.toNat ≤ 122 then Char.ofNat (c.toNat - 32) else c

/-- ASCII lower-casing of one character (`str.lower` restricted to
ASCII, which is all the fallback ladder compares). -/
def pyLowerChar (c : Char) : Char :=
  if 65 ≤ c.toNat ∧ c.toNat ≤ 90 then Char.ofNat (c.toNat + 32) else c

/-- The whitespace characters removed by Python `str.strip()` (ASCII
range). -/
def isSpaceChar (c : Char) : Bool :=
  c == ' ' || c == '\t' || c == '\n' || c == '\r' || c == '\x0b' || c == '\x0c'

/-- Python `str.strip()`: drop leading and trailing whitespace. -/
def pyStrip (l : List Char) : List Char :=
  ((l.dropWhile isSpaceChar).reverse.dropWhile isSpaceChar).reverse

/-- Everything on one line before the first `--` marker: the effect of
`re.sub(r'--.*$', '', line)` on a single line (`.` does not cross a
newline). -/
def dropLineComment : List Char → List Char
  | '-' :: '-' :: _ => []
  | c :: rest => c :: dropLineComment rest
  | [] => []

/-- Split a character list at each newline (Python line structure as seen
by `re.MULTILINE`). -/
def splitLines : List Char → List (List Char)
  | [] => [[]]
  | c :: rest =>
    if c = '\n' then [] :: splitLines rest
    else
      match splitLines rest with
      | [] => [[c]]
      | l :: ls => (c :: l) :: ls

/-- Rejoin lines with newlines (inverse of `splitLines`). -/
def joinLines : List (List Char) → List Char
  | [] => []
  | [l] => l
  | l :: ls => l ++ '\n' :: joinLines ls

/-- `re.sub(r'--.*$', '', query, flags=re.MULTILINE)`: remove each line's
tail from its first `--` on, keeping the line structure. -/
def removeLineComments (q : List Char) : List Char :=
  joinLines ((splitLines q).map dropLineComment)

/-- The `dangerous_keywords` list of `validate_sql`
(`sql_generator.py:143`). -/
def dangerous_keywords : List String :=
  ["DROP", "DELETE", "UPDATE", "INSERT", "ALTER", "CREATE", "TRUNCATE"]

/-- The comment-stripped, trimmed, upper-cased text that `validate_sql`
inspects (`sql_generator.py:139-140`). -/
def cleanedQuery (query : String) : List Char :=
  (pyStrip (removeLineComments query.data)).map pyUpperChar

/-- `SQLGenerator.validate_sql` (`sql_generator.py:136-152`): strip line
comments, trim, uppercase; reject if any dangerous keyword occurs as a
substring (the `for` loop with early `return False`); reject unless the
text starts with `SELECT`. -/
def validate_sql (query : String) : Bool :=
  let clean_query := cleanedQuery query
  if dangerous_keywords.any (fun k => occursIn k.data clean_query) then
    false
  else
    "SELECT".data.isPrefixOf clean_query

/-- The `SQLQuery` pydantic model (`sql_generator.py:15-18`); the float
confidence is modelled by `ℚ`. -/
structure SQLQuery where
  query : String
  explanation : String
  confidence : ℚ
  deriving DecidableEq, Repr

/-- Python `question.lower()` (ASCII case map). -/
def pyLower (s : String) : List Char :=
  s.data.map pyLowerChar

/-- `SQLGenerator.create_fallback_query` (`sql_generator.py:106-134`):
keyword ladder on the lower-cased question, first match wins. -/
def create_fallback_query (question : String) (error : String := "") : SQLQuery :=
  let question_lower := pyLower question
  if occursIn "class".data question_lower && occursIn "all".data question_lower then
    { query := "SELECT class_id, class_name FROM classes LIMIT 100"
      explanation := "Showing all classes from the database"
      confidence := 7/10 }
  else if occursIn "student".data question_lower && occursIn "count".data question_lower then
    { query := "SELECT COUNT(*) as total_students FROM students"
      explanation := "Counting total number of students"
      confidence := 7/10 }
  else if occursIn "student".data question_lower && occursIn "all".data question_lower then
    { query := "SELECT roll_no, first_name, last_name, age FROM students LIMIT 100"
      explanation := "Showing all students in the database"
      confidence := 7/10 }
  else
    { query := "SELECT 'Error: Could not generate query' as error_message"
      explanation := "Failed to generate query for: " ++ question ++ ". Error: " ++ error
      confidence := 0 }

/-! ### JSON values and `json.loads`

`generate_sql` feeds the cleaned model text to `json.loads`; we embed a
JSON reader over `List Char`, fuel-indexed so that it evaluates by kernel
reduction.  Non-finite literals (`NaN`, `Infinity`) are outside the `ℚ`
model and read as failure. -/

/-- A parsed JSON value (the possible results of `json.loads`). -/
inductive JValue where
  | jnull
  | jbool (b : Bool)
  | jnum (v : ℚ)
  | jstr (s : String)
  | jarr (elems : List JValue)
  | jobj (fields : List (String × JValue))

/-- JSON insignificant whitespace. -/
def jsonWs (c : Char) : Bool :=
  c == ' ' || c == '\t' || c == '\n' || c == '\r'

/-- Skip insignificant whitespace. -/
def skipJsonWs (l : List Char) : List Char :=
  l.dropWhile jsonWs

/-- Value of one hex digit. -/
def hexVal (c : Char) : Option Nat :=
  if 48 ≤ c.toNat ∧ c.toNat ≤ 57 then some (c.toNat - 48)
  else if 97 ≤ c.toNat ∧ c.toNat ≤ 102 then some (c.toNat - 87)
  else if 65 ≤ c.toNat ∧ c.toNat ≤ 70 then some (c.toNat - 55)
  else none

/-- ASCII decimal digit test. -/
def isDigitChar (c : Char) : Bool :=
  48 ≤ c.toNat && c.toNat ≤ 57

/-- Numeric value of a digit string. -/
def digitsToNat (ds : List Char) : Nat :=
  ds.foldl (fun acc c => 10 * acc + (c.toNat - 48)) 0

/-- Body of a JSON string after the opening quote: returns the decoded
characters and the text after the closing quote.  Surrogate pairs are not
recombined (a lone `\uXXXX` becomes one character). -/
def readJsonStr : Nat → List Char → Option (List Char × List Char)
  | 0, _ => none
  | _ + 1, [] => none
  | _ + 1, '"' :: rest => some ([], rest)
  | fuel + 1, '\\' :: rest =>
    match rest with
    | '"' :: r => (readJsonStr fuel r).map (fun p => ('"' :: p.1, p.2))
    | '\\' :: r => (readJsonStr fuel r).map (fun p => ('\\' :: p.1, p.2))
    | '/' :: r => (readJsonStr fuel r).map (fun p => ('/' :: p.1, p.2))
    | 'b' :: r => (readJsonStr fuel r).map (fun p => ('\x08' :: p.1, p.2))
    | 'f' :: r => (readJsonStr fuel r).map (fun p => ('\x0c' :: p.1, p.2))
    | 'n' :: r => (readJsonStr fuel r).map (fun p => ('\n' :: p.1, p.2))
    | 'r' :: r => (readJsonStr fuel r).map (fun p => ('\r' :: p.1, p.2))
    | 't' :: r => (readJsonStr fuel r).map (fun p => ('\t' :: p.1, p.2))
    | 'u' :: h1 :: h2 :: h3 :: h4 :: r =>
      match hexVal h1, hexVal h2, hexVal h3, hexVal h4 with
      | some a, some b, some c, some d =>
        (readJsonStr fuel r).map
          (fun p => (Char.ofNat (((a * 16 + b) * 16 + c) * 16 + d) :: p.1, p.2))
      | _, _, _, _ => none
    | _ => none
  | fuel + 1, c :: rest =>
    if c.toNat < 32 then none
    else (readJsonStr fuel rest).map (fun p => (c :: p.1, p.2))

/-- Longest digit run at the head of the text. -/
def spanDigits (l : List Char) : List Char × List Char :=
  (l.takeWhile isDigitChar, l.dropWhile isDigitChar)

/-- Optional JSON exponent part; fails on trailing garbage handled by the
caller (returns the exponent as an integer and the rest). -/
def readExponent (l : List Char) : Option (ℤ × List Char) :=
  match l with
  | 'e' :: r | 'E' :: r =>
    let (sign, r2) : ℤ × List Char :=
      match r with
      | '+' :: rr => (1, rr)
      | '-' :: rr => (-1, rr)
      | _ => (1, r)
    let (ds, r3) := spanDigits r2
    if ds.isEmpty then none else some (sign * digitsToNat ds, r3)
  | _ => some (0, l)

/-- A JSON number at the head of the text: optional minus, integer part
without leading zeros, optional fraction, optional exponent. -/
def readJsonNum (l : List Char) : Option (ℚ × List Char) :=
  let (sign, l1) : ℚ × List Char :=
    match l with
    | '-' :: r => (-1, r)
    | _ => (1, l)
  let (ip, l2) := spanDigits l1
  let intOk : Bool := ip == ['0'] || (!ip.isEmpty && ip.headD '0' != '0')
  if !intOk then none
  else
    let (fracDigits, l3) : List Char × List Char :=
      match l2 with
      | '.' :: r =>
        let (fs, r2) := spanDigits r
        (fs, r2)
      | _ => ([], l2)
    if l2 ≠ [] ∧ l2.headD ' ' = '.' ∧ fracDigits = [] then none
    else
      match readExponent l3 with
      | none => none
      | some (e, l4) =>
        let base : ℚ :=
          (digitsToNat ip : ℚ) + (digitsToNat fracDigits : ℚ) / (10 : ℚ) ^ fracDigits.length
        let scaled : ℚ := if 0 ≤ e then base * (10 : ℚ) ^ e.toNat else base / (10 : ℚ) ^ (-e).toNat
        some (sign * scaled, l4)

mutual

/-- One JSON value at the head of the text (leading whitespace allowed). -/
def readJsonVal : Nat → List Char → Option (JValue × List Char)
  | 0, _ => none
  | fuel + 1, l =>
    match skipJsonWs l with
    | 'n' :: 'u' :: 'l' :: 'l' :: rest => some (.jnull, rest)
    | 't' :: 'r' :: 'u' :: 'e' :: rest => some (.jbool true, rest)
    | 'f' :: 'a' :: 'l' :: 's' :: 'e' :: rest => some (.jbool false, rest)
    | '"' :: rest =>
      (readJsonStr (rest.length + 1) rest).map (fun p => (.jstr (String.mk p.1), p.2))
    | '[' :: rest =>
      (match skipJsonWs rest with
       | ']' :: r => some (.jarr [], r)
       | r => (readJsonElems fuel r).map (fun p => (.jarr p.1, p.2)))
    | '{' :: rest =>
      (match skipJsonWs rest with
       | '}' :: r => some (.jobj [], r)
       | r => (readJsonMembers fuel r).map (fun p => (.jobj p.1, p.2)))
    | rest => (readJsonNum rest).map (fun p => (.jnum p.1, p.2))

/-- Comma-separated values up to the closing `]`. -/
def readJsonElems : Nat → List Char → Option (List JValue × List Char)
  | 0, _ => none
  | fuel + 1, l =>
    match readJsonVal fuel l with
    | none => none
    | some (v, r) =>
      match skipJsonWs r with
      | ',' :: r2 => (readJsonElems fuel r2).map (fun p => (v :: p.1, p.2))
      | ']' :: r2 => some ([v], r2)
      | _ => none

/-- Comma-separated `"key": value` pairs up to the closing `}`. -/
def readJsonMembers : Nat → List Char → Option (List (String × JValue) × List Char)
  | 0, _ => none
  | fuel + 1, l =>
    match skipJsonWs l with
    | '"' :: rest =>
      match readJsonStr (rest.length + 1) rest with
      | none => none
      | some (key, r) =>
        match skipJsonWs r with
        | ':' :: r2 =>
          match readJsonVal fuel r2 with
          | none => none
          | some (v, r3) =>
            match skipJsonWs r3 with
            | ',' :: r4 =>
              (readJsonMembers fuel r4).map (fun p => ((String.mk key, v) :: p.1, p.2))
            | '}' :: r4 => some ([(String.mk key, v)], r4)
            | _ => none
        | _ => none
    | _ => none

end

/-- `json.loads` on our model: one JSON value, possibly surrounded by
whitespace, with nothing after it. -/
def jsonParse (s : String) : Option JValue :=
  match readJsonVal (2 * s.data.length + 4) s.data with
  | some (v, rest) => if (skipJsonWs rest).isEmpty then some v else none
  | none => none

/-- Python `dict.get key` on the parsed field list; later duplicate keys
overwrite earlier ones in `json.loads`, so the last binding wins. -/
def jget (fields : List (String × JValue)) (key : String) : Option JValue :=
  (fields.reverse.find? (fun p => p.1 == key)).map (fun p => p.2)

/-- Unsigned part of Python `float(str)`: digits with optional fraction
and exponent (`inf`, `nan` and digit underscores are outside the `ℚ`
model and read as failure). -/
def pyUFloatOfChars (l : List Char) : Option ℚ :=
  let (ip, l1) := spanDigits l
  let (fracDigits, l2) : List Char × List Char :=
    match l1 with
    | '.' :: r => spanDigits r
    | _ => ([], l1)
  if ip.isEmpty ∧ fracDigits.isEmpty then none
  else
    match readExponent l2 with
    | none => none
    | some (e, l3) =>
      if l3.isEmpty then
        let base : ℚ :=
          (digitsToNat ip : ℚ) + (digitsToNat fracDigits : ℚ) / (10 : ℚ) ^ fracDigits.length
        some (if 0 ≤ e then base * (10 : ℚ) ^ e.toNat else base / (10 : ℚ) ^ (-e).toNat)
      else none

/-- Python `float(str)`: strip whitespace, optional sign, decimal
literal. -/
def pyFloatOfString (s : String) : Option ℚ :=
  match pyStrip s.data with
  | '+' :: r => pyUFloatOfChars r
  | '-' :: r => (pyUFloatOfChars r).map Neg.neg
  | l => pyUFloatOfChars l

/-- Python `float(x)` on a JSON value: numbers and bools coerce, numeric
strings parse, everything else (`None`, lists, dicts, non-numeric
strings) raises — modelled as `none`. -/
def pyFloat : JValue → Option ℚ
  | .jnum v => some v
  | .jbool b => some (if b then 1 else 0)
  | .jstr s => pyFloatOfString s
  | _ => none

/-- The pydantic `str` fields of `SQLQuery`: a JSON string is accepted,
any other value makes the model constructor raise — modelled as
`none`. -/
def asPyStr : JValue → Option String
  | .jstr s => some s
  | _ => none

/-- Lines 94-98 of `sql_generator.py`: build the `SQLQuery` from the
parsed JSON with `parsed.get` defaults; `none` models an exception
(non-dict value, non-string query/explanation, `float()` failure) that
the surrounding `try` converts into the fallback. -/
def buildFromJson : JValue → Option SQLQuery
  | .jobj fields =>
    let qv := (jget fields "query").getD (.jstr "SELECT * FROM classes LIMIT 10")
    let ev := (jget fields "explanation").getD (.jstr "Generated SQL query")
    let cv := (jget fields "confidence").getD (.jnum (4/5))
    (match asPyStr qv, asPyStr ev, pyFloat cv with
     | some q, some e, some c => some { query := q, explanation := e, confidence := c }
     | _, _, _ => none)
  | _ => none

/-- Python `s.split(sep)` for a non-empty separator, fuel-indexed
(`fuel ≥ length` makes it total on the input). -/
def splitOnSepF (sep : List Char) : Nat → List Char → List (List Char)
  | 0, l => [l]
  | fuel + 1, l =>
    if sep.isPrefixOf l ∧ sep ≠ [] then
      [] :: splitOnSepF sep fuel (l.drop sep.length)
    else
      match l with
      | [] => [[]]
      | c :: rest =>
        match splitOnSepF sep fuel rest with
        | [] => [[c]]
        | x :: xs => (c :: x) :: xs

/-- Python `s.split(sep)` on `String`. -/
def pySplit (s sep : String) : List String :=
  (splitOnSepF sep.data (s.data.length + 1) s.data).map String.mk

/-- Lines 87-91 of `sql_generator.py`: strip the model text, then cut out
the fenced block — `split("```json")[1].split("```")[0]` when a
```` ```json ```` marker occurs, else `split("```")[1].split("```")[0]`
when a plain ```` ``` ```` marker occurs, else the stripped text. -/
def cleanModelText (result : String) : String :=
  let cleaned := String.mk (pyStrip result.data)
  if strContains cleaned "```json" then
    (pySplit ((pySplit cleaned "```json").getD 1 "") "```").getD 0 ""
  else if strContains cleaned "```" then
    (pySplit ((pySplit cleaned "```").getD 1 "") "```").getD 0 ""
  else cleaned

/-- Outcome of `self.chain.run(...)`: either the model's raw text, or a
raised exception with its `str(e)` rendering.  The model call is the one
non-deterministic input of `generate_sql`, so it is passed in. -/
inductive ModelResult where
  | err (message : String)
  | ok (text : String)

/-- The inner `try` of `generate_sql` (lines 85-101): clean, parse,
build; `none` is any exception caught by the bare `except`. -/
def parsePipeline (text : String) : Option SQLQuery :=
  (jsonParse (cleanModelText text)).bind buildFromJson

/-- `SQLGenerator.generate_sql` (`sql_generator.py:72-104`) as a function
of the question and the model outcome: a model exception falls back with
`str(e)`, a parse/build exception falls back with the default empty
error. -/
def generate_sql (question : String) (outcome : ModelResult) : SQLQuery :=
  match outcome with
  | .err e => create_fallback_query question e
  | .ok text =>
    match parsePipeline text with
    | some sq => sq
    | none => create_fallback_query question

/-! ### Response generator (`response_generator.py`) -/

/-- A pandas `DataFrame` as the result-formatting step sees it: the list
of rows (`.empty` ↔ no rows, `len` = row count, `.head 10` = first 10
rows).  The cell type is abstract. -/
structure DataFrame (α : Type) where
  rows : List α

/-- `df.head 10` — the first ten rows. -/
def DataFrame.head10 (df : DataFrame α) : DataFrame α :=
  ⟨df.rows.take 10⟩

/-- Lines 49-55 of `response_generator.py`: the `results_text` computed
for a tabular result, with the pandas `to_string(index=False)` renderer
passed in as `render`. -/
def formatResults (render : DataFrame α → String) (results : DataFrame α) : String :=
  if results.rows.isEmpty then
    "No data found."
  else if 10 < results.rows.length then
    "Found " ++ toString results.rows.length ++ " records. Here are the first 10:\n"
      ++ render results.head10
  else
    render results

/-! ### Conversation memory (`memory_manager.py`) -/

/-- The value Python stores in the exchange's `result` slot: either an
object that already is a string, or any other object together with its
`str(...)` rendering. -/
inductive PyResult where
  | pstr (s : String)
  | pother (rendered : String)
  deriving DecidableEq, Repr

/-- `str(result) if not isinstance(result, str) else result`
(`memory_manager.py:27`). -/
def pyResultText : PyResult → String
  | .pstr s => s
  | .pother r => r

/-- One stored exchange (`memory_manager.py:23-29`); every field is a
string — in particular `result` holds the rendering, never the raw
object. -/
structure Exchange where
  timestamp : String
  question : String
  sql_query : String
  result : String
  explanation : String
  deriving DecidableEq, Repr

/-- The `ConversationMemory` state: the `conversations` dict as an
association list in insertion order, and the `current_session`
pointer. -/
structure Memory where
  conversations : List (String × List Exchange)
  current_session : Option String
  deriving DecidableEq, Repr

/-- The empty memory built by `__init__`. -/
def Memory.init : Memory :=
  { conversations := [], current_session := none }

/-- Python `key in dict` / `dict[key]` lookup: first (unique) binding. -/
def dictGet (d : List (String × β)) (key : String) : Option β :=
  match d with
  | [] => none
  | (k, w) :: rest => if k = key then some w else dictGet rest key

/-- Python `dict[key] = value`: overwrite in place, or append a new
binding at the end. -/
def dictSet (d : List (String × β)) (key : String) (v : β) : List (String × β) :=
  match d with
  | [] => [(key, v)]
  | (k, w) :: rest =>
    if k = key then (k, v) :: rest else (k, w) :: dictSet rest key v

/-- `ConversationMemory.create_session` (`memory_manager.py:11-16`); the
uuid is generated outside the model and passed in. -/
def create_session (m : Memory) (session_id : String) : Memory :=
  { conversations := dictSet m.conversations session_id []
    current_session := some session_id }

/-- `ConversationMemory.add_exchange` (`memory_manager.py:18-31`); the
`datetime.now().isoformat()` timestamp is passed in.  An unknown session
id gets a fresh empty log first, then the exchange — with `result`
stringified — is appended. -/
def add_exchange (m : Memory) (session_id question sql_query : String)
    (result : PyResult) (explanation timestamp : String) : Memory :=
  let base :=
    match dictGet m.conversations session_id with
    | none => dictSet m.conversations session_id []
    | some _ => m.conversations
  let log := (dictGet base session_id).getD []
  { m with
    conversations :=
      dictSet base session_id
        (log ++ [{ timestamp := timestamp, question := question,
                   sql_query := sql_query, result := pyResultText result,
                   explanation := explanation }]) }

/-- `ConversationMemory.get_conversation_history` (`memory_manager.py:33-38`):
`[]` for an unknown session, else the Python slice `[-limit:]`. -/
def get_conversation_history (m : Memory) (session_id : String) (limit : Nat) : List Exchange :=
  match dictGet m.conversations session_id with
  | none => []
  | some log => pyTailSlice log limit

/-- `ConversationMemory.get_context_for_question` (`memory_manager.py:40-52`):
empty string when the 5-element history window is empty, else a header
plus `Q:`/`A:` lines over the last 3 exchanges of that window, built from
each exchange's question and explanation. -/
def get_context_for_question (m : Memory) (session_id current_question : String) : String :=
  let history := get_conversation_history m session_id 5
  if history.isEmpty then ""
  else
    "Previous conversation context:\n"
      ++ String.join ((pyTailSlice history 3).map
           (fun ex => "Q: " ++ ex.question ++ "\n" ++ "A: " ++ ex.explanation ++ "\n\n"))

/-- The memory operations that mutate state, for stating log invariants
over arbitrary call sequences. -/
inductive MemOp where
  | create (session_id : String)
  | add (session_id question sql_query : String) (result : PyResult)
        (explanation timestamp : String)
  deriving DecidableEq, Repr

/-- Apply one mutating call. -/
def applyOp (m : Memory) : MemOp → Memory
  | .create sid => create_session m sid
  | .add sid q sql res expl ts => add_exchange m sid q sql res expl ts

/-- Run a call sequence from a starting state. -/
def runOps (m : Memory) : List MemOp → Memory
  | [] => m
  | op :: ops => runOps (applyOp m op) ops

/-- Every exchange in every session log of `m` is the record of some
`add` call among `allowed` — in particular its `result` field is the
`str(...)` rendering of the supplied value. -/
def ResultFaithful (allowed : List MemOp) (m : Memory) : Prop :=
  ∀ sid log, dictGet m.conversations sid = some log →
    ∀ ex ∈ log, ∃ q sql res expl ts,
      (MemOp.add sid q sql res expl ts) ∈ allowed ∧
      ex = { timestamp := ts, question := q, sql_query := sql,
             result := pyResultText res, explanation := expl }

end RagApp

namespace RagApp

/-! ### Helper lemmas -/

theorem validate_sql_spec (q : String) :
    validate_sql q =
      (!dangerous_keywords.any (fun k => occursIn k.data (cleanedQuery q))
        && "SELECT".data.isPrefixOf (cleanedQuery q)) := by
  by_cases h : dangerous_keywords.any (fun k => occursIn k.data (cleanedQuery q)) = true <;>
    simp [validate_sql, h]

/-! ### Claim theorems -/

/-- C1: `validate_sql q` is true iff the comment-stripped, trimmed,
upper-cased text contains none of the dangerous keywords and begins with
`SELECT`; in particular it is false whenever some keyword occurs in that
cleaned text (i.e. case-insensitively outside line comments), and false
whenever the cleaned text does not start with `SELECT`. -/
theorem validate_sql_characterization (q : String) :
    (validate_sql q = true ↔
      ((∀ k ∈ dangerous_keywords, ¬ occursIn k.data (cleanedQuery q) = true) ∧
        "SELECT".data.isPrefixOf (cleanedQuery q) = true))
    ∧ (∀ k ∈ dangerous_keywords, occursIn k.data (cleanedQuery q) = true →
        validate_sql q = false)
    ∧ (¬ "SELECT".data.isPrefixOf (cleanedQuery q) = true → validate_sql q = false) := by
  have hs := validate_sql_spec q
  refine ⟨?_, ?_, ?_⟩
  · rw [hs]
    simp only [Bool.and_eq_true, Bool.not_eq_true', List.any_eq_false, Bool.not_eq_true]
  · intro k hk hocc
    rw [hs]
    have : dangerous_keywords.any (fun k => occursIn k.data (cleanedQuery q)) = true :=
      List.any_eq_true.mpr ⟨k, hk, hocc⟩
    simp [this]
  · intro hns
    rw [hs]
    simp only [Bool.not_eq_true] at hns
    simp [hns]

/-- Witness for C1 at concrete inputs: a safe query with a keyword hidden
in a line comment is accepted, and each rejection corollary fires. -/
theorem validate_sql_characterization_witness :
    validate_sql "SELECT 1 -- drop all" = true ∧
    validate_sql "DELETE FROM students" = false ∧
    validate_sql "  show tables" = false := by
  refine ⟨?_, ?_, ?_⟩
  · exact (validate_sql_characterization "SELECT 1 -- drop all").1.mpr ⟨by decide, by decide⟩
  · exact (validate_sql_characterization "DELETE FROM students").2.1 "DELETE" (by decide)
      (by decide)
  · exact (validate_sql_characterization "  show tables").2.2 (by decide)

/-- C2: the fallback ladder of `create_fallback_query` is evaluated in
order with first match winning — "class"+"all" beats everything,
then "student"+"count", then "student"+"all", and the no-match branch
returns the error-surfacing query with confidence 0 and the question and
error text embedded in the explanation. -/
theorem create_fallback_query_ladder (question error : String) :
    (occursIn "class".data (pyLower question) = true →
     occursIn "all".data (pyLower question) = true →
      create_fallback_query question error =
        { query := "SELECT class_id, class_name FROM classes LIMIT 100"
          explanation := "Showing all classes from the database"
          confidence := 7/10 })
    ∧ (¬(occursIn "class".data (pyLower question) = true ∧
         occursIn "all".data (pyLower question) = true) →
       occursIn "student".data (pyLower question) = true →
       occursIn "count".data (pyLower question) = true →
        create_fallback_query question error =
          { query := "SELECT COUNT(*) as total_students FROM students"
            explanation := "Counting total number of students"
            confidence := 7/10 })
    ∧ (¬(occursIn "class".data (pyLower question) = true ∧
         occursIn "all".data (pyLower question) = true) →
       ¬(occursIn "student".data (pyLower question) = true ∧
         occursIn "count".data (pyLower question) = true) →
       occursIn "student".data (pyLower question) = true →
       occursIn "all".data (pyLower question) = true →
        create_fallback_query question error =
          { query := "SELECT roll_no, first_name, last_name, age FROM students LIMIT 100"
            explanation := "Showing all students in the database"
            confidence := 7/10 })
    ∧ (¬(occursIn "class".data (pyLower question) = true ∧
         occursIn "all".data (pyLower question) = true) →
       ¬(occursIn "student".data (pyLower question) = true ∧
         occursIn "count".data (pyLower question) = true) →
       ¬(occursIn "student".data (pyLower question) = true ∧
         occursIn "all".data (pyLower question) = true) →
        create_fallback_query question error =
          { query := "SELECT 'Error: Could not generate query' as error_message"
            explanation := "Failed to generate query for: " ++ question ++ ". Error: " ++ error
            confidence := 0 }) := by
  refine ⟨fun h1 h2 => ?_, fun hn1 h1 h2 => ?_, fun hn1 hn2 h1 h2 => ?_,
    fun hn1 hn2 hn3 => ?_⟩
  · simp [create_fallback_query, h1, h2]
  · simp [create_fallback_query, Bool.and_eq_true, hn1, h1, h2]
  · have hc : occursIn "class".data (pyLower question) = false := by
      rcases Bool.eq_false_or_eq_true (occursIn "class".data (pyLower question)) with h | h
      · exact absurd ⟨h, h2⟩ hn1
      · exact h
    have hcnt : occursIn "count".data (pyLower question) = false := by
      rcases Bool.eq_false_or_eq_true (occursIn "count".data (pyLower question)) with h | h
      · exact absurd ⟨h1, h⟩ hn2
      · exact h
    simp [create_fallback_query, h1, h2, hc, hcnt]
  · simp [create_fallback_query, Bool.and_eq_true, hn1, hn2, hn3]

/-- Witness for C2: one concrete question per rung — including a question
matching every rung, which still takes the first one. -/
theorem create_fallback_query_ladder_witness :
    (create_fallback_query "count all students in one class" "").query
      = "SELECT class_id, class_name FROM classes LIMIT 100" ∧
    (create_fallback_query "student count" "").query
      = "SELECT COUNT(*) as total_students FROM students" ∧
    (create_fallback_query "all students" "").query
      = "SELECT roll_no, first_name, last_name, age FROM students LIMIT 100" ∧
    (create_fallback_query "hello" "E").explanation
      = "Failed to generate query for: hello. Error: E" := by
  refine ⟨?_, ?_, ?_, ?_⟩
  · rw [(create_fallback_query_ladder "count all students in one class" "").1
      (by decide) (by decide)]
  · rw [(create_fallback_query_ladder "student count" "").2.1
      (by decide) (by decide) (by decide)]
  · rw [(create_fallback_query_ladder "all students" "").2.2.1
      (by decide) (by decide) (by decide) (by decide)]
  · rw [(create_fallback_query_ladder "hello" "E").2.2.2
      (by decide) (by decide) (by decide)]
    decide

/-- C9: every query the deterministic fallback path can produce — all
four rungs, the no-match error-surfacing query included — is accepted by
`validate_sql`. -/
theorem create_fallback_query_validates (question error : String) :
    validate_sql (create_fallback_query question error).query = true := by
  simp only [create_fallback_query]
  split_ifs
  · decide
  · decide
  · decide
  · show validate_sql "SELECT 'Error: Could not generate query' as error_message" = true
    decide

/-- C3: `generate_sql` never fails outward — a model-invocation error
falls back with the error text, a clean/parse/build failure falls back
with the default empty error, and in every case the result is either the
successfully parsed query or a fallback-path query. -/
theorem generate_sql_never_fails (question : String) :
    (∀ e, generate_sql question (.err e) = create_fallback_query question e)
    ∧ (∀ text, parsePipeline text = none →
        generate_sql question (.ok text) = create_fallback_query question "")
    ∧ (∀ outcome, (∃ text sq, outcome = .ok text ∧ parsePipeline text = some sq ∧
          generate_sql question outcome = sq)
        ∨ (∃ e, generate_sql question outcome = create_fallback_query question e)) := by
  refine ⟨fun e => rfl, fun text h => ?_, fun outcome => ?_⟩
  · simp [generate_sql, h]
  · cases outcome with
    | err e => exact Or.inr ⟨e, rfl⟩
    | ok text =>
      cases h : parsePipeline text with
      | none => exact Or.inr ⟨"", by simp [generate_sql, h]⟩
      | some sq => exact Or.inl ⟨text, sq, rfl, h, by simp [generate_sql, h]⟩

/-- Witness for C3: a raising model call and unparseable model text both
produce the fallback query. -/
theorem generate_sql_never_fails_witness :
    generate_sql "hi" (.err "quota exceeded") = create_fallback_query "hi" "quota exceeded"
    ∧ generate_sql "hi" (.ok "I cannot answer that") = create_fallback_query "hi" "" := by
  exact ⟨(generate_sql_never_fails "hi").1 "quota exceeded",
    (generate_sql_never_fails "hi").2.1 "I cannot answer that" (by with_unfolding_all rfl)⟩

/-- C4 counterexample: a question containing "student" and "count" whose
fallback is NOT the count-students query, because it also contains
"class" and "all" and the first rung wins. -/
theorem fallback_count_students_counterexample :
    occursIn "student".data (pyLower "count all students in each class") = true
    ∧ occursIn "count".data (pyLower "count all students in each class") = true
    ∧ (create_fallback_query "count all students in each class" "").query
        = "SELECT class_id, class_name FROM classes LIMIT 100"
    ∧ (create_fallback_query "count all students in each class" "").query
        ≠ "SELECT COUNT(*) as total_students FROM students" := by
  decide

/-- C4 amended: for every question containing "student" and "count" but
not both "class" and "all", the fallback is exactly the count-students
query with confidence 0.7. -/
theorem fallback_count_students_amended (question error : String)
    (hs : occursIn "student".data (pyLower question) = true)
    (hc : occursIn "count".data (pyLower question) = true)
    (hno : ¬(occursIn "class".data (pyLower question) = true ∧
             occursIn "all".data (pyLower question) = true)) :
    create_fallback_query question error =
      { query := "SELECT COUNT(*) as total_students FROM students"
        explanation := "Counting total number of students"
        confidence := 7/10 } := by
  exact (create_fallback_query_ladder question error).2.1 hno hs hc

/-- Witness for the amended C4 at a concrete question. -/
theorem fallback_count_students_amended_witness :
    create_fallback_query "student count" "" =
      { query := "SELECT COUNT(*) as total_students FROM students"
        explanation := "Counting total number of students"
        confidence := 7/10 } :=
  fallback_count_students_amended "student count" "" (by decide) (by decide) (by decide)

/-- C5: the result-formatting step of `generate_response`, for any
renderer — zero rows give exactly "No data found.", more than 10 rows
give exactly the record count plus the rendering of the first 10 rows,
and 1 to 10 rows give the rendering of all rows. -/
theorem formatResults_policy {α : Type} (render : DataFrame α → String) (df : DataFrame α) :
    (df.rows = [] → formatResults render df = "No data found.")
    ∧ (10 < df.rows.length →
        formatResults render df =
          "Found " ++ toString df.rows.length ++ " records. Here are the first 10:\n"
            ++ render ⟨df.rows.take 10⟩)
    ∧ (df.rows ≠ [] → df.rows.length ≤ 10 → formatResults render df = render df) := by
  refine ⟨fun h => ?_, fun h => ?_, fun h1 h2 => ?_⟩
  · simp [formatResults, h]
  · have hne : ¬ df.rows.isEmpty = true := by
      simp only [List.isEmpty_iff]
      intro hnil
      rw [hnil] at h
      simp at h
    simp [formatResults, hne, h, DataFrame.head10]
  · have hne : ¬ df.rows.isEmpty = true := by simpa [List.isEmpty_iff] using h1
    simp [formatResults, hne, not_lt.mpr h2]

/-- Witness for C5 with a concrete renderer and three concrete frames. -/
theorem formatResults_policy_witness :
    formatResults (fun df => String.intercalate "," df.rows) ⟨[]⟩ = "No data found."
    ∧ formatResults (fun df => String.intercalate "," df.rows)
        ⟨["1","2","3","4","5","6","7","8","9","10","11","12"]⟩
        = "Found 12 records. Here are the first 10:\n1,2,3,4,5,6,7,8,9,10"
    ∧ formatResults (fun df => String.intercalate "," df.rows) ⟨["a","b"]⟩ = "a,b" := by
  refine ⟨?_, ?_, ?_⟩
  · exact (formatResults_policy (fun df => String.intercalate "," df.rows) ⟨[]⟩).1 rfl
  · rw [(formatResults_policy (fun df => String.intercalate "," df.rows)
      ⟨["1","2","3","4","5","6","7","8","9","10","11","12"]⟩).2.1 (by decide)]
    decide
  · exact (formatResults_policy (fun df => String.intercalate "," df.rows)
      ⟨["a","b"]⟩).2.2 (by decide) (by decide)

theorem tailSlice_window (l : List α) :
    pyTailSlice (pyTailSlice l 5) 3 = l.drop (l.length - 3) := by
  simp only [pyTailSlice, OfNat.ofNat_ne_zero, if_false, List.drop_drop, List.length_drop]
  congr 1
  omega

theorem tailSlice5_ne_nil (l : List α) (h : l ≠ []) : pyTailSlice l 5 ≠ [] := by
  have hl : 0 < l.length := List.length_pos.mpr h
  simp only [pyTailSlice, OfNat.ofNat_ne_zero, if_false, ne_eq, List.drop_eq_nil_iff]
  omega

/-- C6: `get_context_for_question` ignores its current-question argument,
returns "" for an unknown or empty session, and otherwise returns the
context header followed by `Q:`/`A:` lines built from the question and
explanation of the (at most 3) most recent exchanges. -/
theorem get_context_policy (m : Memory) (sid q : String) :
    (∀ q2, get_context_for_question m sid q = get_context_for_question m sid q2)
    ∧ (dictGet m.conversations sid = none → get_context_for_question m sid q = "")
    ∧ (∀ log, dictGet m.conversations sid = some log →
        (log = [] → get_context_for_question m sid q = "")
        ∧ (log ≠ [] →
            get_context_for_question m sid q =
              "Previous conversation context:\n" ++
                String.join ((log.drop (log.length - 3)).map
                  (fun ex => "Q: " ++ ex.question ++ "\n" ++ "A: " ++ ex.explanation ++ "\n\n")))
        ∧ (log.drop (log.length - 3)).length ≤ 3) := by
  refine ⟨fun q2 => rfl, fun h => ?_, fun log hlog => ⟨fun h => ?_, fun hne => ?_, ?_⟩⟩
  · simp [get_context_for_question, get_conversation_history, h]
  · simp [get_context_for_question, get_conversation_history, hlog, h, pyTailSlice]
  · have hne5 : (pyTailSlice log 5).isEmpty = false := by
      rcases Bool.eq_false_or_eq_true ((pyTailSlice log 5).isEmpty) with hf | ht
      · exact absurd (List.isEmpty_iff.mp hf) (tailSlice5_ne_nil log hne)
      · exact ht
    simp [get_context_for_question, get_conversation_history, hlog, hne5, tailSlice_window]
  · simp only [List.length_drop]
    omega

/-- Witness for C6: a session with four exchanges yields the three most
recent as Q/A lines, for any current question. -/
theorem get_context_policy_witness :
    get_context_for_question
        (runOps Memory.init
          [.create "s",
           .add "s" "q1" "sql1" (.pother "r1") "e1" "t1",
           .add "s" "q2" "sql2" (.pstr "r2") "e2" "t2",
           .add "s" "q3" "sql3" (.pstr "r3") "e3" "t3",
           .add "s" "q4" "sql4" (.pother "r4") "e4" "t4"]) "s" "anything"
      = "Previous conversation context:\nQ: q2\nA: e2\n\nQ: q3\nA: e3\n\nQ: q4\nA: e4\n\n" := by
  have h := ((get_context_policy
      (runOps Memory.init
        [.create "s",
         .add "s" "q1" "sql1" (.pother "r1") "e1" "t1",
         .add "s" "q2" "sql2" (.pstr "r2") "e2" "t2",
         .add "s" "q3" "sql3" (.pstr "r3") "e3" "t3",
         .add "s" "q4" "sql4" (.pother "r4") "e4" "t4"]) "s" "anything").2.2
      [{ timestamp := "t1", question := "q1", sql_query := "sql1", result := "r1",
         explanation := "e1" },
       { timestamp := "t2", question := "q2", sql_query := "sql2", result := "r2",
         explanation := "e2" },
       { timestamp := "t3", question := "q3", sql_query := "sql3", result := "r3",
         explanation := "e3" },
       { timestamp := "t4", question := "q4", sql_query := "sql4", result := "r4",
         explanation := "e4" }] (by decide)).2.1 (by decide)
  rw [h]
  decide

/-- C7 counterexample: with `limit = 0` the Python slice `[-0:]` returns
the whole log, so a two-exchange session returns 2 exchanges, not at
most 0. -/
theorem get_history_limit_zero_counterexample :
    (get_conversation_history
        (runOps Memory.init
          [.create "s",
           .add "s" "q1" "sql1" (.pother "r1") "e1" "t1",
           .add "s" "q2" "sql2" (.pstr "r2") "e2" "t2"]) "s" 0).length = 2
    ∧ ¬((get_conversation_history
        (runOps Memory.init
          [.create "s",
           .add "s" "q1" "sql1" (.pother "r1") "e1" "t1",
           .add "s" "q2" "sql2" (.pstr "r2") "e2" "t2"]) "s" 0).length ≤ 0) := by
  decide

/-- C7 amended: for every positive `limit`, `get_conversation_history`
returns exactly the most recent `limit` exchanges in stored (oldest
first) order — hence at most `limit` of them — and returns `[]` for an
unknown session id at every `limit`; at `limit = 0` the whole log is
returned instead (Python `[-0:]`). -/
theorem get_history_window (m : Memory) (sid : String) (limit : Nat) :
    (dictGet m.conversations sid = none → get_conversation_history m sid limit = [])
    ∧ (∀ log, dictGet m.conversations sid = some log → 0 < limit →
        get_conversation_history m sid limit = log.drop (log.length - limit)
        ∧ (get_conversation_history m sid limit).length ≤ limit)
    ∧ (∀ log, dictGet m.conversations sid = some log →
        get_conversation_history m sid 0 = log) := by
  refine ⟨fun h => by simp [get_conversation_history, h], fun log hlog hpos => ?_,
    fun log hlog => by simp [get_conversation_history, hlog, pyTailSlice]⟩
  have heq : get_conversation_history m sid limit = log.drop (log.length - limit) := by
    simp [get_conversation_history, hlog, pyTailSlice, Nat.pos_iff_ne_zero.mp hpos]
  refine ⟨heq, ?_⟩
  rw [heq]
  simp only [List.length_drop]
  omega

/-- Witness for the amended C7: the most recent single exchange of a
two-exchange session, and the empty answer for an unknown session. -/
theorem get_history_window_witness :
    get_conversation_history
        (runOps Memory.init
          [.create "s",
           .add "s" "q1" "sql1" (.pother "r1") "e1" "t1",
           .add "s" "q2" "sql2" (.pstr "r2") "e2" "t2"]) "s" 1
      = [{ timestamp := "t2", question := "q2", sql_query := "sql2", result := "r2",
           explanation := "e2" }]
    ∧ get_conversation_history
        (runOps Memory.init
          [.create "s",
           .add "s" "q1" "sql1" (.pother "r1") "e1" "t1",
           .add "s" "q2" "sql2" (.pstr "r2") "e2" "t2"]) "nosuch" 7 = [] := by
  constructor
  · have h := ((get_history_window
        (runOps Memory.init
          [.create "s",
           .add "s" "q1" "sql1" (.pother "r1") "e1" "t1",
           .add "s" "q2" "sql2" (.pstr "r2") "e2" "t2"]) "s" 1).2.1
      [{ timestamp := "t1", question := "q1", sql_query := "sql1", result := "r1",
         explanation := "e1" },
       { timestamp := "t2", question := "q2", sql_query := "sql2", result := "r2",
         explanation := "e2" }] (by decide) (by decide)).1
    rw [h]
    decide
  · exact (get_history_window
        (runOps Memory.init
          [.create "s",
           .add "s" "q1" "sql1" (.pother "r1") "e1" "t1",
           .add "s" "q2" "sql2" (.pstr "r2") "e2" "t2"]) "nosuch" 7).1 (by decide)

/-- C8 counterexample: model text that parses successfully as JSON but
carries `"confidence": null` — `float(None)` raises, so the result is the
fallback query (confidence 0), not a query built from the parsed fields
with confidence defaulted to 0.8. -/
theorem parse_success_confidence_counterexample :
    (jsonParse (cleanModelText
        "\x7b\"query\": \"SELECT 1\", \"explanation\": \"e\", \"confidence\": null\x7d")).isSome
        = true
    ∧ generate_sql "hi"
        (.ok "\x7b\"query\": \"SELECT 1\", \"explanation\": \"e\", \"confidence\": null\x7d")
        = create_fallback_query "hi" ""
    ∧ (generate_sql "hi"
        (.ok "\x7b\"query\": \"SELECT 1\", \"explanation\": \"e\", \"confidence\": null\x7d")).confidence
        = 0
    ∧ (generate_sql "hi"
        (.ok "\x7b\"query\": \"SELECT 1\", \"explanation\": \"e\", \"confidence\": null\x7d")).query
        ≠ "SELECT 1" := by
  refine ⟨by decide, by decide, by with_unfolding_all rfl, by decide⟩

/-- C8 amended: when the model text parses as a JSON object, the result
is the query built from the parsed fields whenever that construction
succeeds (with confidence defaulting to 0.8 only when the field is
absent, and a present value coerced by `float(...)`), and the fallback
query when it fails — in particular a present but uncoercible confidence
value yields the fallback, not the 0.8 default. -/
theorem generate_sql_parse_success (question text : String) (fs : List (String × JValue))
    (hparse : jsonParse (cleanModelText text) = some (.jobj fs)) :
    generate_sql question (.ok text)
        = (buildFromJson (.jobj fs)).getD (create_fallback_query question "")
    ∧ (jget fs "confidence" = none → ∀ sq, buildFromJson (.jobj fs) = some sq →
        sq.confidence = 4/5)
    ∧ (∀ cv, jget fs "confidence" = some cv → pyFloat cv = none →
        generate_sql question (.ok text) = create_fallback_query question "")
    ∧ (∀ cv c, jget fs "confidence" = some cv → pyFloat cv = some c →
        ∀ sq, buildFromJson (.jobj fs) = some sq → sq.confidence = c) := by
  have hpp : parsePipeline text = buildFromJson (.jobj fs) := by
    simp [parsePipeline, hparse]
  refine ⟨?_, fun hconf sq hsq => ?_, fun cv hconf hnone => ?_, fun cv c hconf hc sq hsq => ?_⟩
  · cases hb : buildFromJson (.jobj fs) with
    | none => simp [generate_sql, hpp, hb]
    | some sq => simp [generate_sql, hpp, hb]
  · simp only [buildFromJson, hconf, Option.getD_none] at hsq
    rcases hq : asPyStr ((jget fs "query").getD (JValue.jstr "SELECT * FROM classes LIMIT 10"))
        with _ | q <;>
      rcases he : asPyStr ((jget fs "explanation").getD (JValue.jstr "Generated SQL query"))
        with _ | e <;>
      simp [hq, he, pyFloat] at hsq
    rw [← hsq]
  · have hb : buildFromJson (.jobj fs) = none := by
      simp only [buildFromJson, hconf, Option.getD_some]
      rcases hq : asPyStr ((jget fs "query").getD (JValue.jstr "SELECT * FROM classes LIMIT 10"))
          with _ | q <;>
        rcases he : asPyStr ((jget fs "explanation").getD (JValue.jstr "Generated SQL query"))
          with _ | e <;>
        simp [hq, he, hnone]
    simp [generate_sql, hpp, hb]
  · simp only [buildFromJson, hconf, Option.getD_some] at hsq
    rcases hq : asPyStr ((jget fs "query").getD (JValue.jstr "SELECT * FROM classes LIMIT 10"))
        with _ | q <;>
      rcases he : asPyStr ((jget fs "explanation").getD (JValue.jstr "Generated SQL query"))
        with _ | e <;>
      simp [hq, he, hc] at hsq
    rw [← hsq]

/-- Witness for the amended C8: a parse with all three fields present
takes the parsed confidence; a parse without a confidence field defaults
to 0.8. -/
theorem generate_sql_parse_success_witness :
    generate_sql "hi" (.ok "\x7b\"query\": \"SELECT 1\", \"explanation\": \"e\"\x7d")
        = { query := "SELECT 1", explanation := "e", confidence := 4/5 }
    ∧ generate_sql "hi"
        (.ok "\x7b\"query\": \"SELECT 1\", \"explanation\": \"e\", \"confidence\": null\x7d")
        = create_fallback_query "hi" "" := by
  constructor
  · have h := (generate_sql_parse_success "hi"
      "\x7b\"query\": \"SELECT 1\", \"explanation\": \"e\"\x7d"
      [("query", JValue.jstr "SELECT 1"), ("explanation", JValue.jstr "e")] (by rfl)).1
    rw [h]
    with_unfolding_all rfl
  · exact (generate_sql_parse_success "hi"
      "\x7b\"query\": \"SELECT 1\", \"explanation\": \"e\", \"confidence\": null\x7d"
      [("query", JValue.jstr "SELECT 1"), ("explanation", JValue.jstr "e"),
       ("confidence", JValue.jnull)] (by rfl)).2.2.1 JValue.jnull (by rfl) (by rfl)

theorem dictGet_dictSet (d : List (String × β)) (k k' : String) (v : β) :
    dictGet (dictSet d k v) k' = if k' = k then some v else dictGet d k' := by
  induction d with
  | nil =>
    by_cases h : k' = k
    · subst h; simp [dictGet, dictSet]
    · simp only [dictGet, dictSet]
      rw [if_neg (fun hh => h hh.symm), if_neg h]
  | cons hd tl ih =>
    obtain ⟨a, b⟩ := hd
    simp only [dictSet]
    by_cases hak : a = k
    · subst hak
      simp only [if_pos rfl]
      by_cases hk' : a = k'
      · subst hk'; simp [dictGet]
      · simp [dictGet, hk', Ne.symm hk']
    · simp only [if_neg hak, dictGet]
      by_cases hk'a : a = k'
      · subst hk'a
        simp [dictGet, hak]
      · simp [dictGet, hk'a, ih]

theorem dictGet_create_session (m : Memory) (sid sid' : String) :
    dictGet (create_session m sid).conversations sid' =
      if sid' = sid then some [] else dictGet m.conversations sid' := by
  simp [create_session, dictGet_dictSet]

theorem dictGet_add_exchange (m : Memory) (sid question sql : String) (res : PyResult)
    (expl ts sid' : String) :
    dictGet (add_exchange m sid question sql res expl ts).conversations sid' =
      if sid' = sid then
        some (((dictGet m.conversations sid).getD []) ++
          [{ timestamp := ts, question := question, sql_query := sql,
             result := pyResultText res, explanation := expl }])
      else dictGet m.conversations sid' := by
  cases h : dictGet m.conversations sid with
  | none =>
    by_cases hs : sid' = sid
    · subst hs; simp [add_exchange, h, dictGet_dictSet]
    · simp [add_exchange, h, dictGet_dictSet, hs]
  | some log =>
    by_cases hs : sid' = sid
    · subst hs; simp [add_exchange, h, dictGet_dictSet]
    · simp [add_exchange, h, dictGet_dictSet, hs]

theorem resultFaithful_mono {A B : List MemOp} (hAB : ∀ op ∈ A, op ∈ B) (m : Memory)
    (h : ResultFaithful A m) : ResultFaithful B m := by
  intro sid log hlog ex hex
  obtain ⟨q, sql, res, expl, ts, hop, hexeq⟩ := h sid log hlog ex hex
  exact ⟨q, sql, res, expl, ts, hAB _ hop, hexeq⟩

theorem resultFaithful_applyOp {A B : List MemOp} {m : Memory} (h : ResultFaithful A m)
    (op : MemOp) (hop : op ∈ B) (hAB : ∀ o ∈ A, o ∈ B) :
    ResultFaithful B (applyOp m op) := by
  cases op with
  | create sid =>
    intro sid' log hlog ex hex
    rw [applyOp, dictGet_create_session] at hlog
    by_cases hs : sid' = sid
    · rw [if_pos hs] at hlog
      obtain rfl : ([] : List Exchange) = log := Option.some.inj hlog
      exact absurd hex (List.not_mem_nil ex)
    · rw [if_neg hs] at hlog
      exact resultFaithful_mono hAB m h sid' log hlog ex hex
  | add sid q sql res expl ts =>
    intro sid' log hlog ex hex
    rw [applyOp, dictGet_add_exchange] at hlog
    by_cases hs : sid' = sid
    · rw [if_pos hs] at hlog
      obtain rfl := (Option.some.inj hlog).symm
      rcases List.mem_append.mp hex with hold | hnew
      · cases hbase : dictGet m.conversations sid with
        | none => rw [hbase] at hold; exact absurd hold (List.not_mem_nil ex)
        | some baseLog =>
          rw [hbase] at hold
          obtain ⟨q0, sql0, res0, expl0, ts0, hop0, hexeq0⟩ :=
            h sid baseLog hbase ex hold
          exact ⟨q0, sql0, res0, expl0, ts0, hs ▸ hAB _ hop0, hexeq0⟩
      · obtain rfl := List.mem_singleton.mp hnew
        exact ⟨q, sql, res, expl, ts, hs ▸ hop, rfl⟩
    · rw [if_neg hs] at hlog
      exact resultFaithful_mono hAB m h sid' log hlog ex hex

theorem resultFaithful_runOps (ops : List MemOp) : ∀ (m : Memory) (A B : List MemOp),
    ResultFaithful A m → (∀ o ∈ A, o ∈ B) → (∀ o ∈ ops, o ∈ B) →
    ResultFaithful B (runOps m ops) := by
  induction ops with
  | nil =>
    intro m A B h hAB _
    exact resultFaithful_mono hAB m h
  | cons op ops ih =>
    intro m A B h hAB hops
    rw [runOps]
    exact ih (applyOp m op) B B
      (resultFaithful_applyOp h op (hops op (by simp)) hAB)
      (fun o ho => ho) (fun o ho => hops o (by simp [ho]))

/-- C10: `add_exchange` always stores the string rendering of the
supplied result — the stored log gains exactly one exchange whose
`result` field is `pyResultText` of the input (the identity on strings,
`str(...)` on everything else) — and after any call sequence from a fresh
memory, every exchange of every session log is such a record. -/
theorem add_exchange_stores_rendering :
    (∀ (m : Memory) (sid q sql : String) (res : PyResult) (expl ts : String),
      dictGet (add_exchange m sid q sql res expl ts).conversations sid =
        some (((dictGet m.conversations sid).getD []) ++
          [{ timestamp := ts, question := q, sql_query := sql,
             result := pyResultText res, explanation := expl }]))
    ∧ (∀ str2, pyResultText (.pstr str2) = str2)
    ∧ (∀ r, pyResultText (.pother r) = r)
    ∧ (∀ ops : List MemOp, ResultFaithful ops (runOps Memory.init ops)) := by
  refine ⟨fun m sid q sql res expl ts => ?_, fun str2 => rfl, fun r => rfl, fun ops => ?_⟩
  · rw [dictGet_add_exchange]
    simp
  · exact resultFaithful_runOps ops Memory.init [] ops
      (fun sid log hlog => by simp [Memory.init, dictGet] at hlog)
      (fun o ho => absurd ho (List.not_mem_nil o))
      (fun o ho => ho)

/-- Witness for C10: in a concrete run, the stored exchange for a
non-string result `42` holds its rendering `"42"`, traced back to its
`add` call. -/
theorem add_exchange_stores_rendering_witness :
    ∃ q sql res expl ts,
      (MemOp.add "s" q sql res expl ts) ∈
          [MemOp.create "s", MemOp.add "s" "q1" "sql1" (PyResult.pother "42") "e1" "t1"]
        ∧ ({ timestamp := "t1", question := "q1", sql_query := "sql1", result := "42",
             explanation := "e1" } : Exchange)
            = { timestamp := ts, question := q, sql_query := sql,
                result := pyResultText res, explanation := expl } := by
  exact add_exchange_stores_rendering.2.2.2
    [MemOp.create "s", MemOp.add "s" "q1" "sql1" (PyResult.pother "42") "e1" "t1"]
    "s"
    [{ timestamp := "t1", question := "q1", sql_query := "sql1", result := "42",
       explanation := "e1" }]
    (by decide)
    { timestamp := "t1", question := "q1", sql_query := "sql1", result := "42",
      explanation := "e1" }
    (by decide)

end RagApp
